import Mathlib

/-!
Shallow embedding of `src/LakeshoreF41TangoMotorController.py`
(class `LakeshoreF41TangoMotorController`).

Modelling choices:
* Python floats are modelled as rationals `ℚ`; `time.time()` is passed in
  explicitly as a `now : ℚ` argument.
* The tango `DeviceProxy` is a record whose readable attributes carry a value
  of type `Except PyErr _`: reading the attribute either yields the value or
  raises.  Writing an attribute replaces the field by `Except.ok v`.
* `self._motors` (a Python dict from axis number to a per-axis dict) is a
  function `ℕ → Option Motor`; a `none` lookup is a `KeyError`.
* A Python method that may raise returns `Except PyErr _`; `try`/`except`
  blocks become `match`es on that result.  In every raising path of the
  embedded methods no mutation of `self` precedes the raise, so returning
  `Except.error` without a new controller state is faithful to the Python
  semantics.
-/

attribute [local semireducible] Rat.mul Rat.add Rat.sub Rat.inv Rat.ofScientific

namespace LakeshoreF41

/-- The sardana `State` enumeration, restricted to the members used by the
controller source: `State.On`, `State.Moving`, `State.Fault`. -/
inductive State
  | On
  | Moving
  | Fault
  deriving DecidableEq, Repr

/-- An abstract Python exception (`KeyError`, tango communication failure,
`TypeError`, ...).  The controller never inspects the exception object, so a
single constructor suffices. -/
inductive PyErr
  | err
  deriving DecidableEq, Repr

deriving instance DecidableEq for Except

/-- The `DeviceProxy` for the LKSf41Gaussmeter tango device server.  Each
field is the outcome of reading the attribute of that name (tango attribute
names are case-insensitive: `SetPointField`/`SetpointField` and
`SetpointOpenLoop`/`setpointopenloop` are single attributes). -/
structure Proxy where
  MagneticField : Except PyErr ℚ
  SetpointOpenLoop : Except PyErr ℚ
  SetpointField : Except PyErr ℚ
  OpenLoop : Except PyErr ℤ
  FieldControl : Except PyErr ℤ
  deriving DecidableEq, Repr

/-- The per-axis dict created by `AddDevice`:
`{"is_moving": ..., "move_start_time": ..., "move_end_time": ..., "target": ...}`. -/
structure Motor where
  is_moving : Bool
  move_start_time : ℚ
  move_end_time : ℚ
  target : ℚ
  deriving DecidableEq, Repr

/-- The mutable state of a `LakeshoreF41TangoMotorController` instance:
`self._motors` plus the numeric instance attributes set in `__init__` and the
extra-attribute setters. -/
structure Ctrl where
  motors : ℕ → Option Motor
  _th_rel : ℚ
  _th_abs : ℚ
  _timeout : ℚ
  _OL_waittime : ℚ

/-- `MotorController.NoLimitSwitch`, the framework constant returned by
`StateOne` as its third component (no limit switch active). -/
def NoLimitSwitch : ℤ := 0

/-- Python's builtin `abs` on numbers. -/
def pyabs (x : ℚ) : ℚ := if x < 0 then -x else x

/-- Python's builtin `max` on two numbers: `b` if `a < b`, else `a`. -/
def pymax (a b : ℚ) : ℚ := if a < b then b else a

/-- Python's builtin `min` on two numbers: `b` if `b < a`, else `a`. -/
def pymin (a b : ℚ) : ℚ := if b < a then b else a

/-- `ReadOne(self, axis)` (source lines 121-132): axis 0 returns
`1e3 * proxy.MagneticField`; axis 1 returns `proxy.setpointopenloop` when
`proxy.OpenLoop == 1` and Python `None` (here `Option.none`) otherwise. -/
def ReadOne (p : Proxy) (axis : ℕ) : Except PyErr (Option ℚ) :=
  if axis = 0 then
    match p.MagneticField with
    | .error e => .error e
    | .ok f => .ok (some (1000 * f))
  else
    match p.OpenLoop with
    | .error e => .error e
    | .ok ol =>
      if ol = 1 then
        match p.SetpointOpenLoop with
        | .error e => .error e
        | .ok s => .ok (some s)
      else .ok none

/-- `StopOne(self, axis)` (source lines 151-158): axis 0 reads the field,
stores `curr = 1e3 * MagneticField` as the new target, clears `is_moving`
and returns `curr`; any other axis just returns `proxy.SetpointOpenLoop`
without touching `self._motors`. -/
def StopOne (c : Ctrl) (p : Proxy) (axis : ℕ) : Except PyErr (Ctrl × ℚ) :=
  if axis = 0 then
    match p.MagneticField with
    | .error e => .error e
    | .ok f =>
      let curr := 1000 * f
      match c.motors 0 with
      | none => .error PyErr.err
      | some m =>
        .ok ({ c with motors := fun a =>
                 if a = 0 then some { m with target := curr, is_moving := false }
                 else c.motors a },
             curr)
  else
    match p.SetpointOpenLoop with
    | .error e => .error e
    | .ok s => .ok (c, s)

/-- The body of the `try` block in `StateOne` (source lines 88-115), for a
motor `m` already looked up in `self._motors`: it decides the state and
performs the dict mutations of the branch taken.  A raised exception is an
`Except.error` (in every raising path no mutation precedes the raise). -/
def stateOneTry (c : Ctrl) (p : Proxy) (now : ℚ) (axis : ℕ) (m : Motor) :
    Except PyErr (Ctrl × State) :=
  if m.is_moving = false then
    .ok (c, State.On)
  else if axis = 0 then
    match ReadOne p axis with
    | .error e => .error e
    | .ok none => .error PyErr.err
    | .ok (some pos) =>
      let diff_abs := pyabs (pos - m.target)
      let diff_rel := if m.target = 0 then 1 else diff_abs / m.target
      if diff_rel > c._th_rel ∧ diff_abs > c._th_abs then
        if now - m.move_start_time < c._timeout then
          .ok (c, State.Moving)
        else
          match StopOne c p axis with
          | .error e => .error e
          | .ok (c2, _) => .ok (c2, State.On)
      else
        .ok ({ c with motors := fun a =>
                 if a = axis then some { m with is_moving := false }
                 else c.motors a },
             State.On)
  else
    if now < m.move_end_time then
      .ok (c, State.Moving)
    else
      .ok ({ c with motors := fun a =>
               if a = axis then some { m with is_moving := false }
               else c.motors a },
           State.On)

/-- `StateOne(self, axis)` (source lines 75-119).  The dict lookups of
`target` and `move_start_time` happen before the `try` block, so a missing
axis raises; every exception inside the `try` body is caught and mapped to
`State.Fault`.  The result is the triple
`(state, "all fine", limit_switches)` together with the updated controller
state. -/
def StateOne (c : Ctrl) (p : Proxy) (now : ℚ) (axis : ℕ) :
    Except PyErr (Ctrl × State × String × ℤ) :=
  match c.motors axis with
  | none => .error PyErr.err
  | some m =>
    match stateOneTry c p now axis m with
    | .ok (c2, st) => .ok (c2, st, "all fine", NoLimitSwitch)
    | .error _ => .ok (c, State.Fault, "all fine", NoLimitSwitch)

/-- `StartOne(self, axis, position)` (source lines 134-149): write the mode,
setpoint and `FieldControl = 1` on the proxy, then record
`move_start_time = now`,
`move_end_time = min(max(1, 3*|target - position|), 10) + now`,
`is_moving = True` and `target = position` for the started axis.  (If the
axis is missing from `self._motors` the dict lookup raises after the proxy
writes; the error case abstracts that state.) -/
def StartOne (c : Ctrl) (p : Proxy) (now : ℚ) (axis : ℕ) (position : ℚ) :
    Except PyErr (Ctrl × Proxy) :=
  let p2 :=
    if axis = 0 then
      { p with OpenLoop := .ok 0, SetpointField := .ok (1/1000 * position),
               FieldControl := .ok 1 }
    else
      { p with OpenLoop := .ok 1, SetpointOpenLoop := .ok position,
               FieldControl := .ok 1 }
  match c.motors axis with
  | none => .error PyErr.err
  | some m =>
    let duration := 3 * pyabs (m.target - position)
    .ok ({ c with motors := fun a =>
             if a = axis then
               some { is_moving := true, move_start_time := now,
                      move_end_time := pymin (pymax 1 duration) 10 + now,
                      target := position }
             else c.motors a },
         p2)

/-! Sample states used by witnesses and counterexamples. -/

/-- A closed-loop motor mid-move: target 10 mT, move started at t = 0. -/
def mCL : Motor :=
  { is_moving := true, move_start_time := 0, move_end_time := 5, target := 10 }

/-- An open-loop motor mid-move: target 0 A, move ends at t = 5. -/
def mOL : Motor :=
  { is_moving := true, move_start_time := 0, move_end_time := 5, target := 0 }

/-- A controller with both axes present and the default attribute values
(`_th_rel = 0.02`, `_th_abs = 0.5`, `_timeout = 20`, `_OL_waittime = 0.2`). -/
def cSample : Ctrl :=
  { motors := fun a => if a = 0 then some mCL else if a = 1 then some mOL else none
    _th_rel := 1/50
    _th_abs := 1/2
    _timeout := 20
    _OL_waittime := 1/5 }

/-- A proxy whose field reads back as 0.01 T = 10 mT (exactly the sample
target of axis 0). -/
def pNear : Proxy :=
  { MagneticField := .ok (1/100), SetpointOpenLoop := .ok 2,
    SetpointField := .ok (1/100), OpenLoop := .ok 1, FieldControl := .ok 1 }

/-- A proxy whose field reads back as 1 T = 1000 mT, far from the sample
target of axis 0. -/
def pFar : Proxy :=
  { MagneticField := .ok 1, SetpointOpenLoop := .ok 2,
    SetpointField := .ok (1/100), OpenLoop := .ok 1, FieldControl := .ok 1 }

/-- A proxy on which every attribute read raises. -/
def pDead : Proxy :=
  { MagneticField := .error PyErr.err, SetpointOpenLoop := .error PyErr.err,
    SetpointField := .error PyErr.err, OpenLoop := .error PyErr.err,
    FieldControl := .error PyErr.err }

/-- A closed-loop motor mid-move whose stored target is zero. -/
def mZT : Motor :=
  { is_moving := true, move_start_time := 0, move_end_time := 0, target := 0 }

/-- A controller whose axis 0 is a mid-move closed-loop motor with target 0
and the default attribute values. -/
def cZero : Ctrl :=
  { motors := fun a => if a = 0 then some mZT else if a = 1 then some mOL else none
    _th_rel := 1/50
    _th_abs := 1/2
    _timeout := 20
    _OL_waittime := 1/5 }

/-- A motor that is not moving. -/
def mIdle : Motor :=
  { is_moving := false, move_start_time := 0, move_end_time := 0, target := 3 }

/-- A controller whose axis 0 is idle and whose axis 1 is an open-loop move
in progress. -/
def cIdle : Ctrl :=
  { motors := fun a => if a = 0 then some mIdle else if a = 1 then some mOL else none
    _th_rel := 1/50
    _th_abs := 1/2
    _timeout := 20
    _OL_waittime := 1/5 }

theorem pyabs_eq_abs (x : ℚ) : pyabs x = |x| := by
  unfold pyabs
  rcases lt_or_le x 0 with h | h
  · rw [if_pos h, abs_of_neg h]
  · rw [if_neg (not_lt.mpr h), abs_of_nonneg h]

theorem pymax_eq_max (a b : ℚ) : pymax a b = max a b := by
  unfold pymax
  rcases lt_or_le a b with h | h
  · rw [if_pos h, max_eq_right h.le]
  · rw [if_neg (not_lt.mpr h), max_eq_left h]

theorem pymin_eq_min (a b : ℚ) : pymin a b = min a b := by
  unfold pymin
  rcases lt_or_le b a with h | h
  · rw [if_pos h, min_eq_right h.le]
  · rw [if_neg (not_lt.mpr h), min_eq_left h]

/-- Claim C6: for every axis whose `is_moving` flag is false, `StateOne`
returns `State.On` with no limit switch active, for every proxy state
(so regardless of the device position and without reading the proxy), and
leaves the controller state unchanged. -/
theorem stateOne_not_moving_on (c : Ctrl) (now : ℚ) (axis : ℕ) (m : Motor)
    (hmot : c.motors axis = some m) (hmov : m.is_moving = false) :
    ∀ p : Proxy, StateOne c p now axis =
      .ok (c, State.On, "all fine", NoLimitSwitch) := by
  intro p
  unfold StateOne stateOneTry
  rw [hmot]
  simp [hmov]

/-- Witness for C6 at axis 0 of `cIdle`, with a proxy on which every read
raises: the result is still `State.On`. -/
theorem stateOne_not_moving_on_witness :
    cIdle.motors 0 = some mIdle ∧ mIdle.is_moving = false ∧
    StateOne cIdle pDead 7 0 = .ok (cIdle, State.On, "all fine", NoLimitSwitch) :=
  ⟨rfl, rfl, stateOne_not_moving_on cIdle 7 0 mIdle rfl rfl pDead⟩

/-- Claim C1: for axis 0 (closed loop) with `is_moving` true, if the position
read from the device (`1e3 * MagneticField`) is within both the relative and
the absolute threshold of the target, `StateOne` clears `is_moving` and
returns `State.On`. -/
theorem stateOne_closed_within_window (c : Ctrl) (p : Proxy) (now : ℚ)
    (m : Motor) (f : ℚ)
    (hmot : c.motors 0 = some m) (hmov : m.is_moving = true)
    (hmf : p.MagneticField = .ok f)
    (hrel : (if m.target = 0 then 1
             else pyabs (1000 * f - m.target) / m.target) ≤ c._th_rel)
    (habs : pyabs (1000 * f - m.target) ≤ c._th_abs) :
    StateOne c p now 0 =
      .ok ({ c with motors := fun a =>
               if a = 0 then some { m with is_moving := false }
               else c.motors a },
           State.On, "all fine", NoLimitSwitch) := by
  unfold StateOne stateOneTry ReadOne
  rw [hmot, hmf]
  simp only [hmov, Bool.true_eq_false, if_false, if_true, reduceIte]
  rw [if_neg]
  rintro ⟨h1, -⟩
  exact absurd hrel (not_le.mpr h1)

/-- Witness for C1: target 10 mT, field reading 0.01 T = 10 mT, both
differences zero, hence within both default thresholds. -/
theorem stateOne_closed_within_window_witness :
    cSample.motors 0 = some mCL ∧ mCL.is_moving = true ∧
    pNear.MagneticField = .ok (1/100) ∧
    (if mCL.target = 0 then 1
     else pyabs (1000 * (1/100) - mCL.target) / mCL.target) ≤ cSample._th_rel ∧
    pyabs (1000 * (1/100) - mCL.target) ≤ cSample._th_abs ∧
    StateOne cSample pNear 1 0 =
      .ok ({ cSample with motors := fun a =>
               if a = 0 then some { mCL with is_moving := false }
               else cSample.motors a },
           State.On, "all fine", NoLimitSwitch) :=
  ⟨rfl, rfl, rfl, by decide, by decide,
   stateOne_closed_within_window cSample pNear 1 mCL (1/100) rfl rfl rfl
     (by decide) (by decide)⟩

/-- Counterexample to claim C2 as stated: with the default timeout of 20 s,
a move started at t = 0 and polled at t = 20 has elapsed time equal to (so
not exceeding) the timeout, and the position 1000 mT is far outside the
threshold window of target 10 mT; yet `StateOne` takes the timeout branch
and returns `State.On`, not `State.Moving`. -/
theorem stateOne_timeout_boundary_cex :
    (20 : ℚ) - mCL.move_start_time ≤ cSample._timeout ∧
    (StateOne cSample pFar 20 0).map (fun r => r.2.1) = .ok State.On ∧
    State.On ≠ State.Moving := by
  refine ⟨by decide, by decide, by decide⟩

/-- Claim C2 (amended): for axis 0 with `is_moving` true and the position
outside the threshold window, `StateOne` returns `State.Moving` exactly when
the elapsed time since `move_start_time` is strictly less than the timeout;
the timeout branch is taken exactly when the elapsed time is greater than or
equal to the timeout. -/
theorem stateOne_closed_moving_iff_before_timeout (c : Ctrl) (p : Proxy)
    (now : ℚ) (m : Motor) (f : ℚ)
    (hmot : c.motors 0 = some m) (hmov : m.is_moving = true)
    (hmf : p.MagneticField = .ok f)
    (hrel : (if m.target = 0 then 1
             else pyabs (1000 * f - m.target) / m.target) > c._th_rel)
    (habs : pyabs (1000 * f - m.target) > c._th_abs) :
    (StateOne c p now 0 = .ok (c, State.Moving, "all fine", NoLimitSwitch)
      ↔ now - m.move_start_time < c._timeout) := by
  unfold StateOne stateOneTry ReadOne
  rw [hmot, hmf]
  simp only [hmov, Bool.true_eq_false, if_false, if_true, reduceIte]
  rw [if_pos ⟨hrel, habs⟩]
  constructor
  · intro h
    by_contra htime
    rw [if_neg htime] at h
    unfold StopOne at h
    rw [hmf, hmot] at h
    simp at h
  · intro htime
    rw [if_pos htime]

/-- Witness for the amended C2 in both directions: at t = 5 the result is
`State.Moving`, and elapsed time 5 is below the timeout 20. -/
theorem stateOne_closed_moving_iff_before_timeout_witness :
    cSample.motors 0 = some mCL ∧ mCL.is_moving = true ∧
    pFar.MagneticField = .ok 1 ∧
    (if mCL.target = 0 then 1
     else pyabs (1000 * 1 - mCL.target) / mCL.target) > cSample._th_rel ∧
    pyabs (1000 * 1 - mCL.target) > cSample._th_abs ∧
    StateOne cSample pFar 5 0 =
      .ok (cSample, State.Moving, "all fine", NoLimitSwitch) :=
  ⟨rfl, rfl, rfl, by decide, by decide,
   (stateOne_closed_moving_iff_before_timeout cSample pFar 5 mCL 1 rfl rfl rfl
     (by decide) (by decide)).mpr (by decide)⟩

/-- Claim C3: on closed-loop timeout (axis 0, moving, outside the window,
elapsed time at or past the timeout), `StateOne` stops the axis via the
`StopOne` update and returns `State.On`; `StopOne` on axis 0 sets the target
to the current field value `1e3 * MagneticField` and clears `is_moving`. -/
theorem stateOne_closed_timeout_stops (c : Ctrl) (p : Proxy) (now : ℚ)
    (m : Motor) (f : ℚ)
    (hmot : c.motors 0 = some m) (hmov : m.is_moving = true)
    (hmf : p.MagneticField = .ok f)
    (hrel : (if m.target = 0 then 1
             else pyabs (1000 * f - m.target) / m.target) > c._th_rel)
    (habs : pyabs (1000 * f - m.target) > c._th_abs)
    (htime : c._timeout ≤ now - m.move_start_time) :
    StopOne c p 0 =
      .ok ({ c with motors := fun a =>
               if a = 0 then some { m with target := 1000 * f, is_moving := false }
               else c.motors a },
           1000 * f) ∧
    StateOne c p now 0 =
      .ok ({ c with motors := fun a =>
               if a = 0 then some { m with target := 1000 * f, is_moving := false }
               else c.motors a },
           State.On, "all fine", NoLimitSwitch) := by
  have hstop : StopOne c p 0 =
      .ok ({ c with motors := fun a =>
               if a = 0 then some { m with target := 1000 * f, is_moving := false }
               else c.motors a },
           1000 * f) := by
    unfold StopOne
    rw [hmf, hmot]
    simp
  refine ⟨hstop, ?_⟩
  unfold StateOne stateOneTry ReadOne
  rw [hmot, hmf]
  simp only [hmov, Bool.true_eq_false, if_false, if_true, reduceIte]
  rw [if_pos ⟨hrel, habs⟩, if_neg (not_lt.mpr htime), hstop]

/-- Witness for C3: at t = 25 (elapsed 25 ≥ timeout 20) with the field at
1 T, the axis is stopped and the state is `State.On`. -/
theorem stateOne_closed_timeout_stops_witness :
    cSample.motors 0 = some mCL ∧ mCL.is_moving = true ∧
    pFar.MagneticField = .ok 1 ∧
    (if mCL.target = 0 then 1
     else pyabs (1000 * 1 - mCL.target) / mCL.target) > cSample._th_rel ∧
    pyabs (1000 * 1 - mCL.target) > cSample._th_abs ∧
    cSample._timeout ≤ (25 : ℚ) - mCL.move_start_time ∧
    StateOne cSample pFar 25 0 =
      .ok ({ cSample with motors := fun a =>
               if a = 0 then some { mCL with target := 1000 * 1, is_moving := false }
               else cSample.motors a },
           State.On, "all fine", NoLimitSwitch) :=
  ⟨rfl, rfl, rfl, by decide, by decide, by decide,
   (stateOne_closed_timeout_stops cSample pFar 25 mCL 1 rfl rfl rfl
     (by decide) (by decide) (by decide)).2⟩

/-- Claim C4: for axis 1 (open loop) with `is_moving` true, `StateOne`
returns `State.Moving` while `now` is strictly before `move_end_time`, and
otherwise clears `is_moving` and returns `State.On`; both outcomes hold for
every proxy state, so no device feedback is consulted. -/
theorem stateOne_open_loop (c : Ctrl) (now : ℚ) (m : Motor)
    (hmot : c.motors 1 = some m) (hmov : m.is_moving = true) :
    (∀ p : Proxy, now < m.move_end_time →
       StateOne c p now 1 = .ok (c, State.Moving, "all fine", NoLimitSwitch)) ∧
    (∀ p : Proxy, ¬ now < m.move_end_time →
       StateOne c p now 1 =
         .ok ({ c with motors := fun a =>
                  if a = 1 then some { m with is_moving := false }
                  else c.motors a },
              State.On, "all fine", NoLimitSwitch)) := by
  constructor
  · intro p htime
    unfold StateOne stateOneTry
    rw [hmot]
    simp [hmov, htime]
  · intro p htime
    unfold StateOne stateOneTry
    rw [hmot]
    simp [hmov, htime]

/-- Witness for C4 with a proxy on which every read raises: at t = 1 the
open-loop axis (move ends at t = 5) reports `State.Moving`, at t = 5 it
clears `is_moving` and reports `State.On`. -/
theorem stateOne_open_loop_witness :
    cSample.motors 1 = some mOL ∧ mOL.is_moving = true ∧
    (1 : ℚ) < mOL.move_end_time ∧ ¬ (5 : ℚ) < mOL.move_end_time ∧
    StateOne cSample pDead 1 1 =
      .ok (cSample, State.Moving, "all fine", NoLimitSwitch) ∧
    StateOne cSample pDead 5 1 =
      .ok ({ cSample with motors := fun a =>
               if a = 1 then some { mOL with is_moving := false }
               else cSample.motors a },
           State.On, "all fine", NoLimitSwitch) :=
  ⟨rfl, rfl, by decide, by decide,
   (stateOne_open_loop cSample 1 mOL rfl rfl).1 pDead (by decide),
   (stateOne_open_loop cSample 5 mOL rfl rfl).2 pDead (by decide)⟩

/-- Counterexample to claim C5 as stated: starting axis 1 at a position equal
to its previous target (`|Δtarget| = 0`) at t = 0 yields
`move_end_time = 1`, not `0`; a duration proportional to `|Δtarget|` would
have to be `0`, so the end time is not `now` plus a multiple of
`|Δtarget|`. -/
theorem startOne_extrapolation_cex :
    pyabs (mOL.target - 0) = 0 ∧
    (StartOne cSample pDead 0 1 0).map
      (fun r => (r.1.motors 1).map Motor.move_end_time) = .ok (some 1) ∧
    (1 : ℚ) ≠ 0 := by
  refine ⟨by decide, by decide, by decide⟩

/-- Claim C5 (amended): for every axis present in the motor table,
`StartOne(axis, position)` sets `move_end_time` to the current time plus
`3 * |previous target - position|` clamped to the interval `[1, 10]`
(seconds): linear extrapolation of `|Δtarget|` with slope 3, saturated below
at 1 s and above at 10 s. -/
theorem startOne_move_end_time (c : Ctrl) (p : Proxy) (now : ℚ) (axis : ℕ)
    (position : ℚ) (m : Motor) (hmot : c.motors axis = some m) :
    (StartOne c p now axis position).map
      (fun r => (r.1.motors axis).map Motor.move_end_time) =
      .ok (some (pymin (pymax 1 (3 * pyabs (m.target - position))) 10 + now)) := by
  unfold StartOne
  rw [hmot]
  simp [Except.map]

/-- Witness for the amended C5: previous target 0, new position 2, so
`3 * |Δtarget| = 6` lies inside the clamp interval and the move is predicted
to end 6 s after its start at t = 100. -/
theorem startOne_move_end_time_witness :
    cSample.motors 1 = some mOL ∧
    (StartOne cSample pNear 100 1 2).map
      (fun r => (r.1.motors 1).map Motor.move_end_time) =
      .ok (some (pymin (pymax 1 (3 * pyabs (mOL.target - 2))) 10 + 100)) ∧
    pymin (pymax 1 (3 * pyabs (mOL.target - 2))) 10 + 100 = (106 : ℚ) :=
  ⟨rfl, startOne_move_end_time cSample pNear 100 1 2 mOL rfl, by decide⟩

/-- Claim C7: `StartOne` only writes proxy attributes and updates the local
bookkeeping of the started axis.  Axis 0 writes `OpenLoop = 0`,
`SetpointField = position / 1000`, `FieldControl = 1`; axis 1 writes
`OpenLoop = 1`, `SetpointOpenLoop = position`, `FieldControl = 1`; in both
cases the started axis records `move_start_time = now`, the predicted
`move_end_time`, `is_moving = true` and `target = position`, while the other
axis's motor entry is unchanged. -/
theorem startOne_frame_effect (c : Ctrl) (p : Proxy) (now : ℚ) (position : ℚ)
    (m0 m1 : Motor) (h0 : c.motors 0 = some m0) (h1 : c.motors 1 = some m1) :
    StartOne c p now 0 position =
      .ok ({ c with motors := fun a =>
               if a = 0 then
                 some { is_moving := true, move_start_time := now,
                        move_end_time :=
                          pymin (pymax 1 (3 * pyabs (m0.target - position))) 10 + now,
                        target := position }
               else c.motors a },
           { p with OpenLoop := .ok 0, SetpointField := .ok (1/1000 * position),
                    FieldControl := .ok 1 }) ∧
    (StartOne c p now 0 position).map (fun r => r.1.motors 1) = .ok (some m1) ∧
    StartOne c p now 1 position =
      .ok ({ c with motors := fun a =>
               if a = 1 then
                 some { is_moving := true, move_start_time := now,
                        move_end_time :=
                          pymin (pymax 1 (3 * pyabs (m1.target - position))) 10 + now,
                        target := position }
               else c.motors a },
           { p with OpenLoop := .ok 1, SetpointOpenLoop := .ok position,
                    FieldControl := .ok 1 }) ∧
    (StartOne c p now 1 position).map (fun r => r.1.motors 0) = .ok (some m0) := by
  have e0 : StartOne c p now 0 position =
      .ok ({ c with motors := fun a =>
               if a = 0 then
                 some { is_moving := true, move_start_time := now,
                        move_end_time :=
                          pymin (pymax 1 (3 * pyabs (m0.target - position))) 10 + now,
                        target := position }
               else c.motors a },
           { p with OpenLoop := .ok 0, SetpointField := .ok (1/1000 * position),
                    FieldControl := .ok 1 }) := by
    unfold StartOne
    rw [h0]
    simp
  have e1 : StartOne c p now 1 position =
      .ok ({ c with motors := fun a =>
               if a = 1 then
                 some { is_moving := true, move_start_time := now,
                        move_end_time :=
                          pymin (pymax 1 (3 * pyabs (m1.target - position))) 10 + now,
                        target := position }
               else c.motors a },
           { p with OpenLoop := .ok 1, SetpointOpenLoop := .ok position,
                    FieldControl := .ok 1 }) := by
    unfold StartOne
    rw [h1]
    simp
  refine ⟨e0, ?_, e1, ?_⟩
  · rw [e0]
    simp [Except.map, h1]
  · rw [e1]
    simp [Except.map, h0]

/-- Witness for C7 on `cSample` at t = 50, position 4. -/
theorem startOne_frame_effect_witness :
    cSample.motors 0 = some mCL ∧ cSample.motors 1 = some mOL ∧
    StartOne cSample pNear 50 0 4 =
      .ok ({ cSample with
             motors := fun a =>
               if a = 0 then
                 some { is_moving := true, move_start_time := 50,
                        move_end_time :=
                          pymin (pymax 1 (3 * pyabs (mCL.target - 4))) 10 + 50,
                        target := 4 }
               else cSample.motors a },
           { pNear with OpenLoop := .ok 0, SetpointField := .ok (1/1000 * 4),
                        FieldControl := .ok 1 }) ∧
    (StartOne cSample pNear 50 0 4).map (fun r => r.1.motors 1) =
      .ok (some mOL) :=
  ⟨rfl, rfl,
   (startOne_frame_effect cSample pNear 50 4 mCL mOL rfl rfl).1,
   (startOne_frame_effect cSample pNear 50 4 mCL mOL rfl rfl).2.1⟩

/-- Claim C10: `StopOne` on axis 1 returns the proxy's `SetpointOpenLoop`
value and leaves the whole controller state (in particular `is_moving` of
axis 1) unchanged, whereas `StopOne` on axis 0 sets the axis-0 target to the
current field `1e3 * MagneticField` and clears its `is_moving` flag,
returning that field value. -/
theorem stopOne_effects (c : Ctrl) (p : Proxy) (m0 : Motor) (f s : ℚ)
    (h0 : c.motors 0 = some m0) (hmf : p.MagneticField = .ok f)
    (hs : p.SetpointOpenLoop = .ok s) :
    StopOne c p 1 = .ok (c, s) ∧
    StopOne c p 0 =
      .ok ({ c with motors := fun a =>
               if a = 0 then some { m0 with target := 1000 * f, is_moving := false }
               else c.motors a },
           1000 * f) := by
  constructor
  · unfold StopOne
    rw [hs]
    simp
  · unfold StopOne
    rw [hmf, h0]
    simp

/-- Witness for C10: stopping axis 1 of `cSample` returns setpoint 2 and the
untouched controller; stopping axis 0 rewrites the axis-0 target to 10 mT
and clears `is_moving`. -/
theorem stopOne_effects_witness :
    cSample.motors 0 = some mCL ∧ pNear.MagneticField = .ok (1/100) ∧
    pNear.SetpointOpenLoop = .ok 2 ∧
    StopOne cSample pNear 1 = .ok (cSample, 2) ∧
    StopOne cSample pNear 0 =
      .ok ({ cSample with motors := fun a =>
               if a = 0 then some { mCL with target := 1000 * (1/100), is_moving := false }
               else cSample.motors a },
           1000 * (1/100)) :=
  ⟨rfl, rfl, rfl,
   (stopOne_effects cSample pNear mCL (1/100) 2 rfl rfl rfl).1,
   (stopOne_effects cSample pNear mCL (1/100) 2 rfl rfl rfl).2⟩

/-! Helper lemmas about the `try`/`except` structure of `StateOne`. -/

/-- For an axis present in the motor table, `StateOne` always returns an
`ok` result, whatever the try body does. -/
theorem stateOne_ok_of_mem (c : Ctrl) (p : Proxy) (now : ℚ) (axis : ℕ)
    (m : Motor) (hmot : c.motors axis = some m) :
    ∃ r, StateOne c p now axis = .ok r := by
  rcases h : stateOneTry c p now axis m with e | ⟨c2, st⟩
  · refine ⟨(c, State.Fault, "all fine", NoLimitSwitch), ?_⟩
    unfold StateOne
    rw [hmot]
    simp [h]
  · refine ⟨(c2, st, "all fine", NoLimitSwitch), ?_⟩
    unfold StateOne
    rw [hmot]
    simp [h]

/-- A successful try body lifts through the exception handler. -/
theorem stateOne_of_try_ok (c : Ctrl) (p : Proxy) (now : ℚ) (axis : ℕ)
    (m : Motor) (c2 : Ctrl) (st : State) (hmot : c.motors axis = some m)
    (h : stateOneTry c p now axis m = .ok (c2, st)) :
    StateOne c p now axis = .ok (c2, st, "all fine", NoLimitSwitch) := by
  unfold StateOne
  rw [hmot]
  simp [h]

/-- A raising try body is caught and mapped to `State.Fault`, with the
controller state unchanged. -/
theorem stateOne_of_try_error (c : Ctrl) (p : Proxy) (now : ℚ) (axis : ℕ)
    (m : Motor) (e : PyErr) (hmot : c.motors axis = some m)
    (h : stateOneTry c p now axis m = .error e) :
    StateOne c p now axis = .ok (c, State.Fault, "all fine", NoLimitSwitch) := by
  unfold StateOne
  rw [hmot]
  simp [h]

/-- Closed-loop try body, position within the threshold window: clear
`is_moving`, state `On`. -/
theorem stateOneTry_closed_within (c : Ctrl) (p : Proxy) (now : ℚ)
    (m : Motor) (f : ℚ) (hmov : m.is_moving = true)
    (hmf : p.MagneticField = .ok f)
    (hwin : ¬ ((if m.target = 0 then 1
                else pyabs (1000 * f - m.target) / m.target) > c._th_rel
               ∧ pyabs (1000 * f - m.target) > c._th_abs)) :
    stateOneTry c p now 0 m =
      .ok ({ c with motors := fun a =>
               if a = 0 then some { m with is_moving := false }
               else c.motors a },
           State.On) := by
  unfold stateOneTry ReadOne
  rw [hmf]
  simp only [hmov, Bool.true_eq_false, if_false, if_true, reduceIte]
  rw [if_neg hwin]

/-- Closed-loop try body, position outside the window, before the timeout:
state `Moving`, no mutation. -/
theorem stateOneTry_closed_outside_moving (c : Ctrl) (p : Proxy) (now : ℚ)
    (m : Motor) (f : ℚ) (hmov : m.is_moving = true)
    (hmf : p.MagneticField = .ok f)
    (hrel : (if m.target = 0 then 1
             else pyabs (1000 * f - m.target) / m.target) > c._th_rel)
    (habs : pyabs (1000 * f - m.target) > c._th_abs)
    (htime : now - m.move_start_time < c._timeout) :
    stateOneTry c p now 0 m = .ok (c, State.Moving) := by
  unfold stateOneTry ReadOne
  rw [hmf]
  simp only [hmov, Bool.true_eq_false, if_false, if_true, reduceIte]
  rw [if_pos ⟨hrel, habs⟩, if_pos htime]

/-- Closed-loop try body, position outside the window, at or past the
timeout: the axis is stopped and the state is `On`. -/
theorem stateOneTry_closed_outside_timeout (c : Ctrl) (p : Proxy) (now : ℚ)
    (m : Motor) (f : ℚ) (hmot : c.motors 0 = some m)
    (hmov : m.is_moving = true) (hmf : p.MagneticField = .ok f)
    (hrel : (if m.target = 0 then 1
             else pyabs (1000 * f - m.target) / m.target) > c._th_rel)
    (habs : pyabs (1000 * f - m.target) > c._th_abs)
    (htime : ¬ now - m.move_start_time < c._timeout) :
    stateOneTry c p now 0 m =
      .ok ({ c with motors := fun a =>
               if a = 0 then some { m with target := 1000 * f, is_moving := false }
               else c.motors a },
           State.On) := by
  unfold stateOneTry ReadOne
  rw [hmf]
  simp only [hmov, Bool.true_eq_false, if_false, if_true, reduceIte]
  rw [if_pos ⟨hrel, habs⟩, if_neg htime]
  unfold StopOne
  rw [hmf, hmot]
  simp

/-- Claim C8: with a zero stored target the relative-difference computation
cannot raise: the `ZeroDivisionError` guard sets the relative difference to
1, `StateOne` always returns an `ok` result, and (as long as the relative
threshold is below the substituted value 1) the completion decision depends
on the absolute threshold alone: within it the move completes, outside it
the move keeps the moving/timeout behaviour. -/
theorem stateOne_zero_target_abs_only (c : Ctrl) (p : Proxy) (now : ℚ)
    (m : Motor) (f : ℚ)
    (hmot : c.motors 0 = some m) (hmov : m.is_moving = true)
    (htgt : m.target = 0) (hmf : p.MagneticField = .ok f) :
    (∃ r, StateOne c p now 0 = .ok r) ∧
    (c._th_rel < 1 →
      (pyabs (1000 * f) ≤ c._th_abs →
        StateOne c p now 0 =
          .ok ({ c with motors := fun a =>
                   if a = 0 then some { m with is_moving := false }
                   else c.motors a },
               State.On, "all fine", NoLimitSwitch)) ∧
      (c._th_abs < pyabs (1000 * f) →
        (now - m.move_start_time < c._timeout →
          StateOne c p now 0 =
            .ok (c, State.Moving, "all fine", NoLimitSwitch)) ∧
        (¬ now - m.move_start_time < c._timeout →
          StateOne c p now 0 =
            .ok ({ c with motors := fun a =>
                     if a = 0 then some { m with target := 1000 * f, is_moving := false }
                     else c.motors a },
                 State.On, "all fine", NoLimitSwitch)))) := by
  refine ⟨stateOne_ok_of_mem c p now 0 m hmot, ?_⟩
  intro hrel1
  constructor
  · intro habs
    refine stateOne_of_try_ok c p now 0 m _ _ hmot
      (stateOneTry_closed_within c p now m f hmov hmf ?_)
    rw [htgt, sub_zero]
    simp only [if_pos rfl]
    rintro ⟨-, h2⟩
    exact absurd habs (not_le.mpr h2)
  · intro habs
    have hrel : (if m.target = 0 then 1
        else pyabs (1000 * f - m.target) / m.target) > c._th_rel := by
      rw [htgt]
      simp only [if_pos rfl]
      exact hrel1
    have habs' : pyabs (1000 * f - m.target) > c._th_abs := by
      rw [htgt, sub_zero]
      exact habs
    constructor
    · intro htime
      exact stateOne_of_try_ok c p now 0 m _ _ hmot
        (stateOneTry_closed_outside_moving c p now m f hmov hmf hrel habs' htime)
    · intro htime
      exact stateOne_of_try_ok c p now 0 m _ _ hmot
        (stateOneTry_closed_outside_timeout c p now m f hmot hmov hmf hrel habs' htime)

/-- Witness for C8: target 0, field 10 mT (absolute difference 10 above the
threshold 0.5), relative threshold 0.02 below 1, polled 3 s into the move:
the state is `Moving`, decided by the absolute threshold. -/
theorem stateOne_zero_target_abs_only_witness :
    cZero.motors 0 = some mZT ∧ mZT.is_moving = true ∧ mZT.target = 0 ∧
    pNear.MagneticField = .ok (1/100) ∧ cZero._th_rel < 1 ∧
    cZero._th_abs < pyabs (1000 * (1/100)) ∧
    (3 : ℚ) - mZT.move_start_time < cZero._timeout ∧
    StateOne cZero pNear 3 0 =
      .ok (cZero, State.Moving, "all fine", NoLimitSwitch) :=
  ⟨rfl, rfl, rfl, rfl, by decide, by decide, by decide,
   (((stateOne_zero_target_abs_only cZero pNear 3 mZT (1/100) rfl rfl rfl
       rfl).2 (by decide)).2 (by decide)).1 (by decide)⟩

/-- Claim C9: for every axis present in the motor table, `StateOne` never
propagates an exception from its state-decision body: its result is always
`ok`, and in particular a failed proxy field read during a closed-loop move
yields `State.Fault` with the status string and the no-limit-switch value,
with the controller state unchanged. -/
theorem stateOne_no_exception_escape (c : Ctrl) (p : Proxy) (now : ℚ)
    (axis : ℕ) (m : Motor) (hmot : c.motors axis = some m) :
    (∃ r, StateOne c p now axis = .ok r) ∧
    (axis = 0 → m.is_moving = true → p.MagneticField = .error PyErr.err →
      StateOne c p now axis = .ok (c, State.Fault, "all fine", NoLimitSwitch)) := by
  refine ⟨stateOne_ok_of_mem c p now axis m hmot, ?_⟩
  rintro rfl hmov hmf
  apply stateOne_of_try_error c p now 0 m PyErr.err hmot
  unfold stateOneTry ReadOne
  rw [hmf]
  simp [hmov]

/-- Witness for C9: polling moving axis 0 with a proxy on which every read
raises returns `State.Fault` instead of propagating the exception. -/
theorem stateOne_no_exception_escape_witness :
    cSample.motors 0 = some mCL ∧ mCL.is_moving = true ∧
    pDead.MagneticField = .error PyErr.err ∧
    StateOne cSample pDead 3 0 =
      .ok (cSample, State.Fault, "all fine", NoLimitSwitch) :=
  ⟨rfl, rfl, rfl,
   (stateOne_no_exception_escape cSample pDead 3 0 mCL rfl).2 rfl rfl rfl⟩

end LakeshoreF41
